import Mathlib

/-!
Verification of the XYZ hub color space of the `palette` library
(`src/src/xyz.rs`), shallowly embedded over exact rationals: every
channel of generic floating type `T` is modelled as a `ℚ`, and every
numeric literal of the source is taken as the exact rational it denotes.
-/

namespace Palette

/-- Modelled from the spec: the generic clamp utility of §4.1, whose
source (the library prelude) is not under src/. "clamp(value, low, high)
returns low if value < low, high if value > high, else value". -/
def clamp (value low high : ℚ) : ℚ :=
  if value < low then low else if value > high then high else value

/-- Modelled from the spec: the standard illuminant constant X_N of the
`tristimulus` module (file not under src/); §3 fixes the reference white
point as CIE Standard Illuminant D65, 2° observer, whose canonical
tristimulus X value is 0.95047. -/
def X_N : ℚ := 0.95047

/-- Modelled from the spec: the standard illuminant constant Y_N
(D65, 2° observer), canonically 1. -/
def Y_N : ℚ := 1

/-- Modelled from the spec: the standard illuminant constant Z_N
(D65, 2° observer), canonically 1.08883. -/
def Z_N : ℚ := 1.08883

/-- The CIE 1931 XYZ color space with an alpha component
(`struct Xyz<T>` of src/src/xyz.rs). -/
structure Xyz where
  x : ℚ
  y : ℚ
  z : ℚ
  alpha : ℚ
deriving DecidableEq, Repr

/-- `Xyz::xyz(x, y, z)`: CIE XYZ, alpha set to `T::one()`. -/
def Xyz.xyz (x y z : ℚ) : Xyz :=
  { x := x, y := y, z := z, alpha := 1 }

/-- `Xyz::xyza(x, y, z, alpha)`: CIE XYZ and transparency. -/
def Xyz.xyza (x y z alpha : ℚ) : Xyz :=
  { x := x, y := y, z := z, alpha := alpha }

/-- `ColorSpace::is_valid` for `Xyz<T>`: every channel, alpha included,
lies between `T::zero()` and `T::one()`. -/
def Xyz.is_valid (c : Xyz) : Bool :=
  decide (c.x ≥ 0) && decide (c.x ≤ 1) && decide (c.y ≥ 0) &&
  decide (c.y ≤ 1) && decide (c.z ≥ 0) && decide (c.z ≤ 1) &&
  decide (c.alpha ≥ 0) && decide (c.alpha ≤ 1)

/-- `ColorSpace::clamp_self` for `Xyz<T>` (state passing instead of
mutation): each channel clamped into [0, 1]. -/
def Xyz.clamp_self (c : Xyz) : Xyz :=
  { x := Palette.clamp c.x 0 1
    y := Palette.clamp c.y 0 1
    z := Palette.clamp c.z 0 1
    alpha := Palette.clamp c.alpha 0 1 }

/-- `ColorSpace::clamp` for `Xyz<T>`: copies the receiver and applies
`clamp_self` to the copy. -/
def Xyz.clamp (c : Xyz) : Xyz :=
  c.clamp_self

/-- `Mix::mix` for `Xyz<T>`: the factor is clamped to [0, 1], then each
channel is the affine combination `self + factor * (other - self)`. -/
def Xyz.mix (s other : Xyz) (factor : ℚ) : Xyz :=
  let factor := Palette.clamp factor 0 1
  { x := s.x + factor * (other.x - s.x)
    y := s.y + factor * (other.y - s.y)
    z := s.z + factor * (other.z - s.z)
    alpha := s.alpha + factor * (other.alpha - s.alpha) }

/-- `Shade::lighten` for `Xyz<T>`: adds the amount to the y channel
only. -/
def Xyz.lighten (s : Xyz) (amount : ℚ) : Xyz :=
  { x := s.x
    y := s.y + amount
    z := s.z
    alpha := s.alpha }

/-- `Default for Xyz<T>`: `Xyz::xyz(T::zero(), T::zero(), T::zero())`. -/
def Xyz.default : Xyz :=
  Xyz.xyz 0 0 0

/-- Linear RGB with alpha, with the channel fields `red`, `green`,
`blue`, `alpha` that `From<Rgb<T>> for Xyz<T>` reads (the struct itself
lives in rgb.rs, outside src/; its fields are forced by that access). -/
structure Rgb where
  red : ℚ
  green : ℚ
  blue : ℚ
  alpha : ℚ
deriving DecidableEq, Repr

/-- `From<Rgb<T>> for Xyz<T>` (src/src/xyz.rs lines 220-229): the sRGB
D65 3×3 matrix applied to linear channels, alpha passed through. -/
def Xyz.fromRgb (rgb : Rgb) : Xyz :=
  { x := rgb.red * 0.4124 + rgb.green * 0.3576 + rgb.blue * 0.1805
    y := rgb.red * 0.2126 + rgb.green * 0.7152 + rgb.blue * 0.0722
    z := rgb.red * 0.0193 + rgb.green * 0.1192 + rgb.blue * 0.9505
    alpha := rgb.alpha }

/-- Luma with alpha, with the fields `luma`, `alpha` that
`From<Luma<T>> for Xyz<T>` reads (the struct lives outside src/). -/
structure Luma where
  luma : ℚ
  alpha : ℚ
deriving DecidableEq, Repr

/-- `From<Luma<T>> for Xyz<T>` (src/src/xyz.rs lines 231-240). -/
def Xyz.fromLuma (l : Luma) : Xyz :=
  { x := 0
    y := l.luma
    z := 0
    alpha := l.alpha }

/-- Lab with alpha, with the fields `l`, `a`, `b`, `alpha` that
`From<Lab<T>> for Xyz<T>` reads (the struct lives outside src/). -/
structure Lab where
  l : ℚ
  a : ℚ
  b : ℚ
  alpha : ℚ
deriving DecidableEq, Repr

/-- `f_inv` of src/src/xyz.rs lines 277-286: the piecewise inverse of
the CIE Lab nonlinearity. The source binds `c_6_o_29_p_2` to the decimal
literal `0.04280618311` (its comment calls it (6/29)^2) and branches on
`t > 6.0 / 29.0`. -/
def f_inv (t : ℚ) : ℚ :=
  let c_6_o_29_p_2 : ℚ := 0.04280618311
  if t > 6 / 29 then
    t * t * t
  else
    3 * c_6_o_29_p_2 * (t - 4 / 29)

/-- `From<Lab<T>> for Xyz<T>` (src/src/xyz.rs lines 242-256), expression
for expression. -/
def Xyz.fromLab (lab : Lab) : Xyz :=
  { x := X_N * f_inv ((1 / 116) * (lab.l * 100 + 16) +
      (1 / 500) * lab.a * 128)
    y := Y_N * f_inv ((1 / 116) * (lab.l * 100 + 16))
    z := Z_N * f_inv ((1 / 116) * (lab.l * 100 + 16) -
      (1 / 200) * lab.b * 128)
    alpha := lab.alpha }

/-- The piecewise inverse exactly as claim C1 words it: breakpoint 6/29
and coefficient exactly (6/29)^2. Written from the spec's words, to be
compared with `f_inv`, which is written from the source. -/
def f_inv_claimed (t : ℚ) : ℚ :=
  if t > 6 / 29 then
    t ^ 3
  else
    3 * (6 / 29) ^ 2 * (t - 4 / 29)

/-- The Lab → Xyz conversion exactly as claim C1 words it:
fy = (L*100 + 16)/116, fx = fy + a*128/500, fz = fy - b*128/200, result
(X_N * f_inv(fx), Y_N * f_inv(fy), Z_N * f_inv(fz), alpha), with the
claim's exact-coefficient `f_inv_claimed`. Written from the spec's
words, to be compared with `Xyz.fromLab`. -/
def fromLab_claimed (lab : Lab) : Xyz :=
  let fy := (lab.l * 100 + 16) / 116
  let fx := fy + lab.a * 128 / 500
  let fz := fy - lab.b * 128 / 200
  { x := X_N * f_inv_claimed fx
    y := Y_N * f_inv_claimed fy
    z := Z_N * f_inv_claimed fz
    alpha := lab.alpha }

/-- The same claim-side conversion with the coefficient the amendment
forces: the source's literal 0.04280618311 in place of the exact
(6/29)^2, every other part of claim C1 kept. -/
def fromLab_amended (lab : Lab) : Xyz :=
  let fy := (lab.l * 100 + 16) / 116
  let fx := fy + lab.a * 128 / 500
  let fz := fy - lab.b * 128 / 200
  { x := X_N * f_inv fx
    y := Y_N * f_inv fy
    z := Z_N * f_inv fz
    alpha := lab.alpha }

lemma clamp_eq_self (v low high : ℚ) (h1 : low ≤ v) (h2 : v ≤ high) :
    clamp v low high = v := by
  unfold clamp
  rw [if_neg (not_lt.mpr h1), if_neg (not_lt.mpr h2)]

lemma clamp_le (v low high : ℚ) (h : low ≤ high) :
    clamp v low high ≤ high := by
  unfold clamp
  split
  · exact h
  · split
    · exact le_refl high
    · exact le_of_not_lt (by assumption)

lemma le_clamp (v low high : ℚ) (h : low ≤ high) :
    low ≤ clamp v low high := by
  unfold clamp
  split
  · exact le_refl low
  · split
    · exact h
    · exact le_of_not_lt (by assumption)

lemma clamp_idem (v low high : ℚ) (h : low ≤ high) :
    clamp (clamp v low high) low high = clamp v low high :=
  clamp_eq_self _ _ _ (le_clamp v low high h) (clamp_le v low high h)

/-- C9: `Xyz::default()` is black and fully opaque: x = 0, y = 0, z = 0,
alpha = 1. -/
theorem default_black_opaque :
    Xyz.default = { x := 0, y := 0, z := 0, alpha := 1 } := rfl

/-- C10: the three-argument constructor `Xyz::xyz` always sets alpha to
exactly 1, while `Xyz::xyza` stores the given alpha unchanged. -/
theorem constructors_alpha (x y z a : ℚ) :
    (Xyz.xyz x y z).alpha = 1 ∧
    Xyz.xyza x y z a = { x := x, y := y, z := z, alpha := a } :=
  ⟨rfl, rfl⟩

/-- C8: Luma → Xyz puts the luma value in y, zero in x and z, and passes
alpha through unchanged. -/
theorem fromLuma_formula (l : Luma) :
    Xyz.fromLuma l = { x := 0, y := l.luma, z := 0, alpha := l.alpha } :=
  rfl

/-- C7: lighten adds the amount to the y channel, leaves x, z and alpha
unchanged, and applies no clamping: at a concrete input it produces an
out-of-range y, which `is_valid` rejects. -/
theorem lighten_adds_to_y_only (v : Xyz) (amount : ℚ) :
    Xyz.lighten v amount =
      { x := v.x, y := v.y + amount, z := v.z, alpha := v.alpha } ∧
    Xyz.lighten { x := 0, y := 1, z := 0, alpha := 1 } 1 =
      { x := 0, y := 2, z := 0, alpha := 1 } ∧
    (Xyz.lighten { x := 0, y := 1, z := 0, alpha := 1 } 1).is_valid = false := by
  refine ⟨rfl, by simp [Xyz.lighten]; norm_num, by simp [Xyz.lighten, Xyz.is_valid]⟩

/-- C5: clamping an Xyz value is idempotent: clamp(clamp(v)) = clamp(v). -/
theorem clamp_idempotent (v : Xyz) :
    Xyz.clamp (Xyz.clamp v) = Xyz.clamp v := by
  cases v
  simp only [Xyz.clamp, Xyz.clamp_self]
  congr 1 <;> exact clamp_idem _ 0 1 (by norm_num)

/-- C6: clamp always produces a valid value, and `is_valid` holds exactly
when every channel, alpha included, lies in the closed range [0, 1]. -/
theorem clamp_valid_and_is_valid_iff (v : Xyz) :
    (Xyz.clamp v).is_valid = true ∧
    (v.is_valid = true ↔
      (0 ≤ v.x ∧ v.x ≤ 1 ∧ 0 ≤ v.y ∧ v.y ≤ 1 ∧
       0 ≤ v.z ∧ v.z ≤ 1 ∧ 0 ≤ v.alpha ∧ v.alpha ≤ 1)) := by
  constructor
  · cases v
    simp only [Xyz.clamp, Xyz.clamp_self, Xyz.is_valid, Bool.and_eq_true,
      decide_eq_true_eq, ge_iff_le]
    refine ⟨⟨⟨⟨⟨⟨⟨?_, ?_⟩, ?_⟩, ?_⟩, ?_⟩, ?_⟩, ?_⟩, ?_⟩ <;>
      first
        | exact le_clamp _ 0 1 (by norm_num)
        | exact clamp_le _ 0 1 (by norm_num)
  · simp only [Xyz.is_valid, Bool.and_eq_true, decide_eq_true_eq, ge_iff_le]
    tauto

/-- C3: the mix identities hold: mix(a, b, 0) = a, mix(a, b, 1) = b, and
mix(a, a, f) = a for every factor f in [0, 1]. -/
theorem mix_identities (a b : Xyz) :
    Xyz.mix a b 0 = a ∧ Xyz.mix a b 1 = b ∧
    ∀ f : ℚ, 0 ≤ f → f ≤ 1 → Xyz.mix a a f = a := by
  refine ⟨?_, ?_, ?_⟩
  · cases a; cases b
    simp only [Xyz.mix, clamp_eq_self 0 0 1 (by norm_num) (by norm_num)]
    congr 1 <;> ring
  · cases a; cases b
    simp only [Xyz.mix, clamp_eq_self 1 0 1 (by norm_num) (by norm_num)]
    congr 1 <;> ring
  · intro f hf0 hf1
    cases a
    simp only [Xyz.mix, clamp_eq_self f 0 1 hf0 hf1]
    congr 1 <;> ring

/-- C3 witness: the identities at concrete inputs, with the hypotheses
0 ≤ 1/2 and 1/2 ≤ 1 discharged. -/
theorem mix_identities_witness :
    Xyz.mix ⟨1, 2, 3, 1⟩ ⟨4, 5, 6, 0⟩ 0 = ⟨1, 2, 3, 1⟩ ∧
    Xyz.mix ⟨1, 2, 3, 1⟩ ⟨4, 5, 6, 0⟩ 1 = ⟨4, 5, 6, 0⟩ ∧
    ((0 : ℚ) ≤ 1 / 2 ∧ (1 / 2 : ℚ) ≤ 1 ∧
      Xyz.mix ⟨1, 2, 3, 1⟩ ⟨1, 2, 3, 1⟩ (1 / 2) = ⟨1, 2, 3, 1⟩) :=
  ⟨(mix_identities ⟨1, 2, 3, 1⟩ ⟨4, 5, 6, 0⟩).1,
   (mix_identities ⟨1, 2, 3, 1⟩ ⟨4, 5, 6, 0⟩).2.1,
   by norm_num, by norm_num,
   (mix_identities ⟨1, 2, 3, 1⟩ ⟨1, 2, 3, 1⟩).2.2 (1 / 2)
     (by norm_num) (by norm_num)⟩

/-- C4: mix clamps the factor to [0, 1] first and then forms the
per-channel affine combination a + f(b - a) on x, y, z and alpha; hence
mix(a, b, f) = mix(a, b, clamp(f, 0, 1)) for every f, and in particular
mix(a, b, 3/2) = mix(a, b, 1). -/
theorem mix_clamps_factor (a b : Xyz) (f : ℚ) :
    Xyz.mix a b f =
      { x := a.x + Palette.clamp f 0 1 * (b.x - a.x)
        y := a.y + Palette.clamp f 0 1 * (b.y - a.y)
        z := a.z + Palette.clamp f 0 1 * (b.z - a.z)
        alpha := a.alpha + Palette.clamp f 0 1 * (b.alpha - a.alpha) } ∧
    Xyz.mix a b f = Xyz.mix a b (Palette.clamp f 0 1) ∧
    Xyz.mix a b (3 / 2) = Xyz.mix a b 1 := by
  refine ⟨rfl, ?_, ?_⟩
  · simp only [Xyz.mix, clamp_idem f 0 1 (by norm_num)]
  · have h : Palette.clamp (3 / 2) 0 1 = Palette.clamp 1 0 1 := by
      unfold Palette.clamp
      norm_num
    simp only [Xyz.mix, h]

/-- C2: Rgb → Xyz is the linear matrix transform
x = 0.4124 R + 0.3576 G + 0.1805 B, y = 0.2126 R + 0.7152 G + 0.0722 B,
z = 0.0193 R + 0.1192 G + 0.9505 B, alpha unchanged, and the golden
conversions of (1,0,0), (0,1,0), (0,0,1) each hold within 1e-4. -/
theorem fromRgb_matrix_and_golden (rgb : Rgb) :
    (Xyz.fromRgb rgb =
      { x := 0.4124 * rgb.red + 0.3576 * rgb.green + 0.1805 * rgb.blue
        y := 0.2126 * rgb.red + 0.7152 * rgb.green + 0.0722 * rgb.blue
        z := 0.0193 * rgb.red + 0.1192 * rgb.green + 0.9505 * rgb.blue
        alpha := rgb.alpha }) ∧
    (|(Xyz.fromRgb ⟨1, 0, 0, 1⟩).x - 0.4124| ≤ 1 / 10000 ∧
     |(Xyz.fromRgb ⟨1, 0, 0, 1⟩).y - 0.2126| ≤ 1 / 10000 ∧
     |(Xyz.fromRgb ⟨1, 0, 0, 1⟩).z - 0.0193| ≤ 1 / 10000) ∧
    (|(Xyz.fromRgb ⟨0, 1, 0, 1⟩).x - 0.3576| ≤ 1 / 10000 ∧
     |(Xyz.fromRgb ⟨0, 1, 0, 1⟩).y - 0.7152| ≤ 1 / 10000 ∧
     |(Xyz.fromRgb ⟨0, 1, 0, 1⟩).z - 0.1192| ≤ 1 / 10000) ∧
    (|(Xyz.fromRgb ⟨0, 0, 1, 1⟩).x - 0.1805| ≤ 1 / 10000 ∧
     |(Xyz.fromRgb ⟨0, 0, 1, 1⟩).y - 0.0722| ≤ 1 / 10000 ∧
     |(Xyz.fromRgb ⟨0, 0, 1, 1⟩).z - 0.9505| ≤ 1 / 10000) := by
  refine ⟨?_, ?_, ?_, ?_⟩
  · cases rgb
    simp only [Xyz.fromRgb]
    congr 1 <;> ring
  all_goals norm_num [Xyz.fromRgb]

/-- C1, amended: Lab → Xyz computes fy = (L·100 + 16)/116,
fx = fy + a·128/500, fz = fy − b·128/200 and returns
(X_N·f_inv(fx), Y_N·f_inv(fy), Z_N·f_inv(fz), alpha), where f_inv
branches at exactly 6/29 but uses the literal coefficient 0.04280618311
(an approximation of (6/29)^2) in the linear branch. -/
theorem fromLab_amended_formula (lab : Lab) :
    Xyz.fromLab lab = fromLab_amended lab := by
  simp only [Xyz.fromLab, fromLab_amended]
  have h1 : (lab.l * 100 + 16) / 116 + lab.a * 128 / 500
      = (1 / 116 : ℚ) * (lab.l * 100 + 16) + (1 / 500) * lab.a * 128 := by
    ring
  have h2 : (lab.l * 100 + 16) / 116
      = (1 / 116 : ℚ) * (lab.l * 100 + 16) := by
    ring
  have h3 : (lab.l * 100 + 16) / 116 - lab.b * 128 / 200
      = (1 / 116 : ℚ) * (lab.l * 100 + 16) - (1 / 200) * lab.b * 128 := by
    ring
  rw [h1, h3, h2]

/-- C1 counterexample: at Lab (0.05, 0, 0, 1) (fy = 21/116 ≤ 6/29, the
linear branch) the code's output differs from the claim's formula with
the exact coefficient (6/29)^2, because the code's coefficient is the
literal 0.04280618311 ≠ 36/841. -/
theorem fromLab_exact_coefficient_fails :
    Xyz.fromLab { l := 1 / 20, a := 0, b := 0, alpha := 1 } ≠
      fromLab_claimed { l := 1 / 20, a := 0, b := 0, alpha := 1 } := by
  intro h
  have hy := congrArg Xyz.y h
  have e1 : (Xyz.fromLab { l := 1 / 20, a := 0, b := 0, alpha := 1 }).y
      = 3 * (0.04280618311 : ℚ) * (21 / 116 - 4 / 29) := by
    simp only [Xyz.fromLab, f_inv, Y_N]
    rw [if_neg (by norm_num)]
    norm_num
  have e2 : (fromLab_claimed { l := 1 / 20, a := 0, b := 0, alpha := 1 }).y
      = 3 * ((6 : ℚ) / 29) ^ 2 * (21 / 116 - 4 / 29) := by
    simp only [fromLab_claimed, f_inv_claimed, Y_N]
    rw [if_neg (by norm_num)]
    norm_num
  rw [e1, e2] at hy
  norm_num at hy

end Palette
